import Mathlib

/-!
Verification of the Fly-platformX scheduling core against its specification.

Each section embeds one component of the C++ source shallowly in Lean:
doubles are modelled as exact rationals, `std::chrono` time points as
natural numbers, byte vectors as `List Nat`, and containers as lists.
Section comments cite the source file and line range each definition
embeds.
-/

namespace Spec2Proof

/-! ## Load balancer (include/core/balancer/LoadBalancer.hpp, unnamed/part_011)

`TaskTypes.hpp` defines `TaskType`, `KernelMetrics` and `TaskDescriptor`;
`part_011` is `LoadBalancer.cpp`.  The C++ field `diskIO` is spelled
`diskIo` here.
-/

/-- Task classes from TaskTypes.hpp. -/
inductive TaskType where
  | CPU_INTENSIVE
  | IO_INTENSIVE
  | MEMORY_INTENSIVE
  | NETWORK_INTENSIVE
  | MIXED
deriving DecidableEq, Repr

/-- Balancing strategies from LoadBalancer.hpp. -/
inductive BalancingStrategy where
  | ResourceAware
  | WorkloadSpecific
  | HybridAdaptive
  | PriorityAdaptive
  | LeastLoaded
  | RoundRobin
deriving DecidableEq, Repr

/-- Kernel metrics snapshot from TaskTypes.hpp; all `double` fields are
modelled as exact rationals. -/
structure KernelMetrics where
  load : ℚ
  latency : ℚ
  cacheEfficiency : ℚ
  tunnelBandwidth : ℚ
  activeTasks : Int
  cpuUsage : ℚ
  memoryUsage : ℚ
  networkBandwidth : ℚ
  diskIo : ℚ
  energyConsumption : ℚ
  cpuTaskEfficiency : ℚ
  ioTaskEfficiency : ℚ
  memoryTaskEfficiency : ℚ
  networkTaskEfficiency : ℚ
deriving DecidableEq, Repr

/-- The all-zero metrics record: every field of `KernelMetrics` carries the
in-class initializer `0.0` (respectively `0`) in TaskTypes.hpp. -/
def KernelMetrics.zero : KernelMetrics :=
  ⟨0, 0, 0, 0, 0, 0, 0, 0, 0, 0, 0, 0, 0, 0⟩

/-- Task descriptor from TaskTypes.hpp.  `enqueueTime` stands for the
`steady_clock::time_point`; the payload is a byte list. -/
structure TaskDescriptor where
  data : List Nat
  priority : Int
  enqueueTime : Nat
  type : TaskType
  estimatedMemoryUsage : Nat
  estimatedCpuTime : Nat
deriving DecidableEq, Repr

/-- Mutable state of `LoadBalancer` (LoadBalancer.hpp lines 215-233,
trailing underscores dropped). -/
structure LoadBalancer where
  strategy : String
  strategyEnum : BalancingStrategy
  rrIdx : Nat
  cpuWeight : ℚ
  memoryWeight : ℚ
  networkWeight : ℚ
  energyWeight : ℚ
  resourceThreshold : ℚ
  workloadThreshold : ℚ
  resourceAwareDecisions : Nat
  workloadSpecificDecisions : Nat
  totalDecisions : Nat
deriving DecidableEq, Repr

/-- The default-constructed balancer: constructor `LoadBalancer()` sets the
strategy string to "hybrid_adaptive" (part_011 line 11); all other fields
carry their in-class initializers (LoadBalancer.hpp lines 216-233). -/
def LoadBalancer.default : LoadBalancer :=
  { strategy := "hybrid_adaptive"
    strategyEnum := BalancingStrategy.HybridAdaptive
    rrIdx := 0
    cpuWeight := 0.3
    memoryWeight := 0.25
    networkWeight := 0.25
    energyWeight := 0.2
    resourceThreshold := 0.8
    workloadThreshold := 0.7
    resourceAwareDecisions := 0
    workloadSpecificDecisions := 0
    totalDecisions := 0 }

/-- `LoadBalancer::calculateResourceScore` (part_011 lines 173-187). -/
def calculateResourceScore (lb : LoadBalancer) (m : KernelMetrics)
    (task : TaskDescriptor) : ℚ :=
  let cpuScore := (1 - m.cpuUsage) * lb.cpuWeight
  let memoryScore := (1 - m.memoryUsage) * lb.memoryWeight
  let networkScore := (m.networkBandwidth / 1000) * lb.networkWeight
  let energyScore := (1 - m.energyConsumption / 100) * lb.energyWeight
  let memoryScore2 :=
    if task.estimatedMemoryUsage > 0 then
      memoryScore * (1 - (task.estimatedMemoryUsage : ℚ) / (1024 * 1024 * 1024))
    else memoryScore
  cpuScore + memoryScore2 + networkScore + energyScore

/-- `LoadBalancer::calculateWorkloadScore` (part_011 lines 189-215). -/
def calculateWorkloadScore (m : KernelMetrics) (task : TaskDescriptor) : ℚ :=
  let efficiencyScore :=
    match task.type with
    | TaskType.CPU_INTENSIVE => m.cpuTaskEfficiency
    | TaskType.IO_INTENSIVE => m.ioTaskEfficiency
    | TaskType.MEMORY_INTENSIVE => m.memoryTaskEfficiency
    | TaskType.NETWORK_INTENSIVE => m.networkTaskEfficiency
    | TaskType.MIXED =>
        (m.cpuTaskEfficiency + m.ioTaskEfficiency +
         m.memoryTaskEfficiency + m.networkTaskEfficiency) / 4
  1 - efficiencyScore

/-- The argmin loop shared by the three selection functions
(part_011 lines 105-117, 122-135, 155-167): `bestScore` starts at
`std::numeric_limits<double>::max()`, modelled by `none` so that the first
computed score always replaces it, and is replaced thereafter exactly when
the candidate is strictly smaller; `bestKernel` starts at 0. -/
def selectBest : List ℚ → Nat → Option ℚ → Nat → Nat
  | [], _, _, best => best
  | s :: rest, i, none, _ => selectBest rest (i + 1) (some s) i
  | s :: rest, i, some b, best =>
      if s < b then selectBest rest (i + 1) (some s) i
      else selectBest rest (i + 1) (some b) best

/-- `LoadBalancer::selectByResourceAware` (part_011 lines 103-118). -/
def selectByResourceAware (lb : LoadBalancer) (metrics : List KernelMetrics)
    (task : TaskDescriptor) : Nat :=
  selectBest (metrics.map (fun m => calculateResourceScore lb m task)) 0 none 0

/-- `LoadBalancer::selectByWorkloadSpecific` (part_011 lines 120-136). -/
def selectByWorkloadSpecific (metrics : List KernelMetrics)
    (task : TaskDescriptor) : Nat :=
  selectBest (metrics.map (fun m => calculateWorkloadScore m task)) 0 none 0

/-- `LoadBalancer::selectByHybridAdaptive` (part_011 lines 138-171).
The source reads `metrics[0]`; `balance` only calls it with a non-empty
metrics vector, and the head default below is never used in the theorems. -/
def selectByHybridAdaptive (lb : LoadBalancer) (metrics : List KernelMetrics)
    (task : TaskDescriptor) : Nat :=
  let m0 := metrics.headD KernelMetrics.zero
  let resourceScore := calculateResourceScore lb m0 task
  let workloadScore := calculateWorkloadScore m0 task
  if resourceScore > lb.resourceThreshold then
    selectByResourceAware lb metrics task
  else if task.type ≠ TaskType.MIXED ∧ workloadScore > lb.workloadThreshold then
    selectByWorkloadSpecific metrics task
  else
    selectBest
      (metrics.map (fun m =>
        0.6 * calculateResourceScore lb m task + 0.4 * calculateWorkloadScore m task))
      0 none 0

/-- The per-task strategy dispatch inside `LoadBalancer::balance`
(part_011 lines 45-60 and 71-86): the `default` branch, reached for
`PriorityAdaptive`, `LeastLoaded` and `RoundRobin`, falls through to
`selectByResourceAware`. -/
def selectionFor (lb : LoadBalancer) (metrics : List KernelMetrics)
    (task : TaskDescriptor) : Nat :=
  match lb.strategyEnum with
  | BalancingStrategy.ResourceAware => selectByResourceAware lb metrics task
  | BalancingStrategy.WorkloadSpecific => selectByWorkloadSpecific metrics task
  | BalancingStrategy.HybridAdaptive => selectByHybridAdaptive lb metrics task
  | _ => selectByResourceAware lb metrics task

/-- `LoadBalancer::setResourceWeights` (part_011 lines 232-241): the four
weights are stored verbatim. -/
def setResourceWeights (lb : LoadBalancer) (cpuW memW netW energyW : ℚ) :
    LoadBalancer :=
  { lb with
    cpuWeight := cpuW
    memoryWeight := memW
    networkWeight := netW
    energyWeight := energyW }

/-- `LoadBalancer::setStrategy(const std::string&)` (part_011 lines 262-272). -/
def setStrategy (lb : LoadBalancer) (s : String) : LoadBalancer :=
  let e :=
    if s = "resource_aware" then BalancingStrategy.ResourceAware
    else if s = "workload_specific" then BalancingStrategy.WorkloadSpecific
    else if s = "hybrid_adaptive" then BalancingStrategy.HybridAdaptive
    else if s = "least_loaded" then BalancingStrategy.LeastLoaded
    else if s = "round_robin" then BalancingStrategy.RoundRobin
    else BalancingStrategy.PriorityAdaptive
  { lb with strategy := s, strategyEnum := e }

/-- `LoadBalancer::getStrategy` (part_011 lines 274-277). -/
def getStrategy (lb : LoadBalancer) : String :=
  lb.strategy

/-- The strategy names recognized by `setStrategy` (part_011 lines 265-269). -/
def recognizedStrategies : List String :=
  ["resource_aware", "workload_specific", "hybrid_adaptive",
   "least_loaded", "round_robin"]

/-! ## Recovery manager (unnamed/part_007, i.e. RecoveryManager.cpp)

`RecoveryManager.hpp` is absent from the sources; the record fields below
are the ones part_007 reads and writes.  SHA-256 itself is OpenSSL code
external to the repository and is modelled as an abstract digest function
`hash`; the hex serialisation loop of
`detail::StateValidator::calculateChecksum` (part_007 lines 151-163) and of
`RecoveryManager::generatePointId` (lines 446-455) is embedded exactly. -/

/-- Lowercase hex digit, as produced by `std::hex` on a stringstream. -/
def hexDigit (n : Nat) : Char :=
  if n < 10 then Char.ofNat (48 + n) else Char.ofNat (87 + n)

/-- Two-character zero-padded lowercase hex rendering of a byte
(`std::hex << std::setw(2) << std::setfill` of a value below 256). -/
def hexByte (b : Nat) : String :=
  String.mk [hexDigit (b % 256 / 16), hexDigit (b % 256 % 16)]

/-- Hex rendering of a byte list, one `hexByte` per element, in order. -/
def hexOfBytes : List Nat → String
  | [] => ""
  | b :: rest => hexByte b ++ hexOfBytes rest

/-- `detail::StateValidator::validateState` (part_007 lines 142-148):
reject an empty state, otherwise compute the hex checksum of the digest and
require it to be non-empty.  The stored checksum of the point being
validated is never consulted. -/
def validateStateFn (hash : List Nat → List Nat) (state : List Nat) : Bool :=
  if state.isEmpty then false
  else !(hexOfBytes (hash state)).isEmpty

/-- Recovery point record; the fields part_007 uses.  Byte payloads are
`List Nat`, timestamps `Nat`. -/
structure RecoveryPoint where
  id : String
  timestamp : Nat
  state : List Nat
  checksum : String
  size : Nat
  isConsistent : Bool
deriving DecidableEq, Repr

/-- `RecoveryManager::generatePointId` (part_007 lines 446-455): eight
masked samples of the generator, each rendered as a two-character hex
byte. -/
def generatePointId (rng : Nat → Nat) : String :=
  hexOfBytes ((List.range 8).map (fun i => rng i % 256))

/-- `RecoveryManager::createRecoveryPoint` (part_007 lines 307-344).
`newId` stands for the `generatePointId()` call, `capture` for the
user-installed state-capture callback, `compress` for the compression hook
(whose definition is absent from the sources), and `saveOk` for the
success of `CheckpointManager::saveCheckpoint` (file I/O).  Returns the id
handed back to the caller together with the record passed to
`saveCheckpoint`; an exception path returns the empty string. -/
def createRecoveryPoint (enableStateValidation enableCompression : Bool)
    (newId : String) (timestamp : Nat)
    (capture : Unit → List Nat)
    (hash : List Nat → List Nat)
    (compress : List Nat → List Nat)
    (saveOk : RecoveryPoint → Bool) : String × Option RecoveryPoint :=
  let p0 : RecoveryPoint :=
    { id := newId, timestamp := timestamp, state := [], checksum := ""
      size := 0, isConsistent := false }
  let p1 :=
    if enableStateValidation then
      let st := capture ()
      { p0 with
        state := st
        checksum := hexOfBytes (hash st)
        isConsistent := validateStateFn hash st }
    else p0
  let p2 :=
    if enableCompression then { p1 with state := compress p1.state } else p1
  let p3 := { p2 with size := p2.state.length }
  if saveOk p3 then (p3.id, some p3) else ("", none)

/-- One cache entry (`CacheEntry`): payload bytes, last-access time and
access counter, as constructed in part_012 lines 122-127. -/
structure CMEntry where
  data : List Nat
  lastAccess : Nat
  accessCount : Nat
deriving DecidableEq, Repr

/-- Configuration fields of `CacheConfig` read by part_012. -/
structure CMConfig where
  maxSize : Nat
  maxEntries : Nat
  entryLifetime : Nat
deriving DecidableEq, Repr

/-- State of `CacheManager::Impl` (part_012 lines 13-39) together with the
`initialized` flag of the manager. -/
structure CMState where
  initialized : Bool
  entries : List (String × CMEntry)
  totalRequests : Nat
  hitCount : Nat
  evictionCount : Nat
deriving DecidableEq, Repr

/-- Replace the value stored under `key` in place, keeping the position
(`std::unordered_map` rewrites the mapped value of an existing node). -/
def updateEntry : List (String × CMEntry) → String → CMEntry →
    List (String × CMEntry)
  | [], _, _ => []
  | (k, e) :: rest, key, e2 =>
      if k = key then (k, e2) :: rest else (k, e) :: updateEntry rest key e2

/-- `entries[key] = entry`: replace in place when present, insert
otherwise. -/
def storeEntry (es : List (String × CMEntry)) (key : String) (e : CMEntry) :
    List (String × CMEntry) :=
  if (es.lookup key).isSome then updateEntry es key e else es ++ [(key, e)]

/-- `CacheManager::getCacheSize` (part_012 lines 185-192): total payload
bytes. -/
def getCacheSize (es : List (String × CMEntry)) : Nat :=
  es.foldl (fun acc p => acc + p.2.data.length) 0

/-- Running minimum of the last-access times, seeded with `acc`. -/
def minAccess : List (String × CMEntry) → Nat → Nat
  | [], acc => acc
  | p :: rest, acc => minAccess rest (min acc p.2.lastAccess)

/-- Drop the first entry whose last-access time equals `m`
(`std::min_element` returns the first minimum in iteration order). -/
def dropFirstWithAccess : List (String × CMEntry) → Nat → List (String × CMEntry)
  | [], _ => []
  | p :: rest, m =>
      if p.2.lastAccess = m then rest else p :: dropFirstWithAccess rest m

/-- One iteration of the size-eviction loop in `cleanupCache` (part_012
lines 247-261): erase the entry `std::min_element` finds. -/
def removeOldest (es : List (String × CMEntry)) : List (String × CMEntry) :=
  match es with
  | [] => []
  | p :: rest => dropFirstWithAccess (p :: rest) (minAccess rest p.2.lastAccess)

/-- The `while (getCacheSize() > maxSize)` loop of `cleanupCache`
(part_012 lines 247-261).  The fuel argument bounds the iteration count;
each iteration removes one entry, so the entry count suffices. -/
def evictBySizeAux (maxSize : Nat) : Nat → List (String × CMEntry) →
    List (String × CMEntry)
  | 0, es => es
  | fuel + 1, es =>
      if getCacheSize es > maxSize then evictBySizeAux maxSize fuel (removeOldest es)
      else es

/-- `CacheManager::cleanupCache` (part_012 lines 230-271): drop entries
whose age exceeds `entryLifetime`, then evict oldest-first while the byte
size exceeds `maxSize`.  Returns the surviving entries and the number of
removals (each removal also increments `evictionCount`). -/
def cleanupCache (cfg : CMConfig) (now : Nat) (es : List (String × CMEntry)) :
    List (String × CMEntry) × Nat :=
  let fresh := es.filter (fun p => decide (now - p.2.lastAccess ≤ cfg.entryLifetime))
  let final := evictBySizeAux cfg.maxSize fresh.length fresh
  (final, es.length - final.length)

/-- `CacheManager::getData` (part_012 lines 74-104): no expiry check — a
resident entry is returned whatever its age, and its `lastAccess` is
refreshed to `now`. -/
def getData (s : CMState) (now : Nat) (key : String) :
    Option (List Nat) × CMState :=
  if s.initialized = false then (none, s)
  else
    let s1 := { s with totalRequests := s.totalRequests + 1 }
    match s1.entries.lookup key with
    | none => (none, s1)
    | some e =>
        let e2 := { e with lastAccess := now, accessCount := e.accessCount + 1 }
        (some e.data,
         { s1 with
           hitCount := s1.hitCount + 1
           entries := updateEntry s1.entries key e2 })

/-- `CacheManager::putData` (part_012 lines 107-141): reject oversized
payloads, run `cleanupCache` when the entry count has reached
`maxEntries`, then store the entry with `lastAccess = now`. -/
def putData (cfg : CMConfig) (s : CMState) (now : Nat) (key : String)
    (data : List Nat) : Bool × CMState :=
  if s.initialized = false then (false, s)
  else if data.length > cfg.maxSize then (false, s)
  else
    let cleaned :=
      if s.entries.length ≥ cfg.maxEntries then cleanupCache cfg now s.entries
      else (s.entries, 0)
    (true,
     { s with
       entries := storeEntry cleaned.1 key ⟨data, now, 0⟩
       evictionCount := s.evictionCount + cleaned.2 })

/-- State right after a successful `CacheManager::initialize` on a fresh
manager (part_012 lines 42-71): empty cache, zero counters, flag set. -/
def CMState.fresh : CMState :=
  ⟨true, [], 0, 0, 0⟩

/-! ## Thread pool (src/core/thread/ThreadPool.cpp)

`ThreadPool::stop` (lines 227-246) sets the stop flag and joins the
workers.  `Impl::processTasks` (lines 127-155) only returns when the stop
flag is set AND the queue is empty; with the flag set and tasks still
queued, the wait passes, the front task is popped and executed.  The model
below runs one worker from the moment the stop flag is set, accumulating
the closures it executes in order. -/

/-- The worker loop of `Impl::processTasks` once `stop` is true: pop and
execute the FIFO front until the queue is empty, then exit. -/
def processTasksStopped : List Nat → List Nat → List Nat
  | [], executed => executed
  | t :: rest, executed => processTasksStopped rest (executed ++ [t])

/-! ## Extended kernel metrics (CoreKernel.cpp lines 824-854 and
unnamed/part_009, i.e. MicroKernel.cpp, lines 258-288) -/

/-- Kernel kinds (include/core/cache/metrics/CacheMetrics.hpp lines
300-308). -/
inductive KernelType where
  | PARENT
  | MICRO
  | SMART
  | COMPUTATIONAL
  | ARCHITECTURAL
  | ORCHESTRATION
  | CRYPTO
deriving DecidableEq, Repr

/-- The fields of `PerformanceMetrics` read by the two
`updateExtendedMetricsFromPerformance` implementations. -/
structure PerformanceMetrics where
  cpu_usage : ℚ
  memory_usage : ℚ
  latency : ℚ
  cacheEfficiency : ℚ
  tunnelBandwidth : ℚ
  power_consumption : ℚ
  efficiencyScore : ℚ
deriving DecidableEq, Repr

/-- `CoreKernel::updateExtendedMetricsFromPerformance` (CoreKernel.cpp
lines 824-854).  `ktype` is the value of the virtual `getType()` of the
kernel running the inherited method; `queueSize` is `taskQueue.size()`. -/
def coreUpdateExtendedMetrics (ktype : KernelType) (perf : PerformanceMetrics)
    (queueSize : Nat) : KernelMetrics :=
  { load := perf.cpu_usage
    latency := perf.latency
    cacheEfficiency := perf.cacheEfficiency
    tunnelBandwidth := perf.tunnelBandwidth
    activeTasks := (queueSize : Int)
    cpuUsage := perf.cpu_usage
    memoryUsage := perf.memory_usage
    networkBandwidth := 1000
    diskIo := 1000
    energyConsumption := perf.power_consumption
    cpuTaskEfficiency :=
      perf.efficiencyScore * (if ktype = KernelType.COMPUTATIONAL then 1.2 else 1)
    ioTaskEfficiency :=
      perf.efficiencyScore * (if ktype = KernelType.MICRO then 1.1 else 1)
    memoryTaskEfficiency :=
      perf.efficiencyScore * (if ktype = KernelType.ARCHITECTURAL then 1.15 else 1)
    networkTaskEfficiency :=
      perf.efficiencyScore * (if ktype = KernelType.ORCHESTRATION then 1.25 else 1) }

/-- `MicroKernel::updateExtendedMetricsFromPerformance` (part_009 lines
258-288), the override used by MICRO kernels: fixed multipliers 0.9, 1.1,
0.95 and 1.05. -/
def microUpdateExtendedMetrics (perf : PerformanceMetrics)
    (queueSize : Nat) : KernelMetrics :=
  { load := perf.cpu_usage
    latency := perf.latency
    cacheEfficiency := perf.cacheEfficiency
    tunnelBandwidth := perf.tunnelBandwidth
    activeTasks := (queueSize : Int)
    cpuUsage := perf.cpu_usage
    memoryUsage := perf.memory_usage
    networkBandwidth := 500
    diskIo := 500
    energyConsumption := perf.power_consumption
    cpuTaskEfficiency := perf.efficiencyScore * 0.9
    ioTaskEfficiency := perf.efficiencyScore * 1.1
    memoryTaskEfficiency := perf.efficiencyScore * 0.95
    networkTaskEfficiency := perf.efficiencyScore * 1.05 }

/-- The efficiency-multiplier table as the claim states it: COMPUTATIONAL
cpu 1.2, MICRO io 1.1 and cpu 0.9, ARCHITECTURAL memory 1.15,
ORCHESTRATION network 1.25, every other combination 1.  Written from the
claim's words for comparison with the two functions above. -/
def claimedEfficiencyMultiplier (ktype : KernelType) (cls : TaskType) : ℚ :=
  match ktype, cls with
  | KernelType.COMPUTATIONAL, TaskType.CPU_INTENSIVE => 1.2
  | KernelType.MICRO, TaskType.IO_INTENSIVE => 1.1
  | KernelType.MICRO, TaskType.CPU_INTENSIVE => 0.9
  | KernelType.ARCHITECTURAL, TaskType.MEMORY_INTENSIVE => 1.15
  | KernelType.ORCHESTRATION, TaskType.NETWORK_INTENSIVE => 1.25
  | _, _ => 1

/-- Read one of the four per-class efficiencies from a metrics record. -/
def classEfficiency (m : KernelMetrics) (cls : TaskType) : ℚ :=
  match cls with
  | TaskType.CPU_INTENSIVE => m.cpuTaskEfficiency
  | TaskType.IO_INTENSIVE => m.ioTaskEfficiency
  | TaskType.MEMORY_INTENSIVE => m.memoryTaskEfficiency
  | TaskType.NETWORK_INTENSIVE => m.networkTaskEfficiency
  | TaskType.MIXED => 0

/-! ## Dynamic cache (include side: unnamed/part_001, i.e. DynamicCache.hpp)

The repository ships only the class declaration (part_001) and tests
(part_005) of `DynamicCache`; the member definitions are absent from the
sources.  The operational model below is therefore modelled from the spec,
section 4.1.  Recency is a list with the most recently used entry at the
front (the `lruList_` of part_001 read front-to-back); the claims under
test use `put` with the constructor's default TTL 0 (immortal), so entry
expiry plays no role and time is elided. -/

/-- Modelled from the spec: cache state for `DynamicCache` — capacity
(`allocatedSize_`), entries in recency order (front = most recently used),
and the eviction-callback invocations in the order they fired
(`DynamicCache.cpp` being absent from the sources). -/
structure SpecCache (K V : Type) where
  capacity : Nat
  entries : List (K × V)
  evLog : List (K × V)

/-- Remove the entry keyed `k`, keeping the rest in order. -/
def eraseKey [DecidableEq K] (es : List (K × V)) (k : K) : List (K × V) :=
  es.filter (fun p => decide (p.1 ≠ k))

/-- Modelled from the spec: the eviction loop of `put` — "evict the LRU
tail until size == allocatedSize calling the eviction callback for each
victim".  The fuel argument bounds the iterations; one entry leaves per
iteration, so the entry count suffices. -/
def evictLoopAux (cap : Nat) : Nat → List (K × V) → List (K × V) →
    List (K × V) × List (K × V)
  | 0, es, log => (es, log)
  | fuel + 1, es, log =>
      if es.length ≤ cap then (es, log)
      else
        match es.getLast? with
        | none => (es, log)
        | some victim => evictLoopAux cap fuel es.dropLast (log ++ [victim])

/-- Modelled from the spec: `DynamicCache::put` — "if the key exists,
overwrite and move-to-front; else insert-front and, if
size > allocatedSize, evict the LRU tail until size == allocatedSize
calling the eviction callback for each victim" (spec section 4.1;
definition absent from the sources). -/
def specPut [DecidableEq K] (c : SpecCache K V) (k : K) (v : V) :
    SpecCache K V :=
  if (c.entries.lookup k).isSome then
    { c with entries := (k, v) :: eraseKey c.entries k }
  else
    let es := (k, v) :: c.entries
    let r := evictLoopAux c.capacity (es.length + 1) es c.evLog
    { c with entries := r.1, evLog := r.2 }

/-- Modelled from the spec: `DynamicCache::get` advances LRU recency on a
hit and is a no-op on a miss (spec section 4.1). -/
def specGet [DecidableEq K] (c : SpecCache K V) (k : K) :
    Option V × SpecCache K V :=
  match c.entries.lookup k with
  | none => (none, c)
  | some v => (some v, { c with entries := (k, v) :: eraseKey c.entries k })

/-- The empty cache of capacity `cap` with no callback invocations yet. -/
def emptyCache (K V : Type) (cap : Nat) : SpecCache K V :=
  ⟨cap, [], []⟩

/-- Execute a list of puts left to right. -/
def putAll [DecidableEq K] (c : SpecCache K V) (ps : List (K × V)) :
    SpecCache K V :=
  ps.foldl (fun acc p => specPut acc p.1 p.2) c

/-! ## Concrete instances used by individual claims -/

/-- Metrics of the first kernel in the balancer scenario: CPU usage 0.95,
memory usage 0.3, every other field equal to the second kernel's (zero). -/
def scenarioMetrics0 : KernelMetrics :=
  { KernelMetrics.zero with cpuUsage := 0.95, memoryUsage := 0.3 }

/-- Metrics of the second kernel in the balancer scenario: CPU usage 0.2,
memory usage 0.4, every other field equal to the first kernel's (zero). -/
def scenarioMetrics1 : KernelMetrics :=
  { KernelMetrics.zero with cpuUsage := 0.2, memoryUsage := 0.4 }

/-- Metrics with the shared fields of the balancer scenario left open:
CPU and memory usage as given, network bandwidth, energy consumption and
the four per-class efficiencies equal across kernels. -/
def scenarioMetrics (cpu mem nb ec ce ie me ne : ℚ) : KernelMetrics :=
  { KernelMetrics.zero with
    cpuUsage := cpu, memoryUsage := mem, networkBandwidth := nb
    energyConsumption := ec, cpuTaskEfficiency := ce, ioTaskEfficiency := ie
    memoryTaskEfficiency := me, networkTaskEfficiency := ne }

/-- A single MIXED-type task with default priority and no resource
estimates. -/
def mixedTask : TaskDescriptor :=
  ⟨[], 5, 0, TaskType.MIXED, 0, 0⟩

/-- A stand-in digest function: a 32-byte (all-zero) digest, the length
SHA-256 produces. -/
def zeroDigest : List Nat → List Nat :=
  fun _ => List.replicate 32 0

/-- Cache configuration with a one-second entry lifetime. -/
def ttlConfig : CMConfig :=
  ⟨100, 10, 1⟩

/-- Performance metrics with baseline efficiency 1 and all else zero. -/
def unitPerf : PerformanceMetrics :=
  ⟨0, 0, 0, 0, 0, 0, 1⟩

/-- The efficiency-multiplier table the inherited CoreKernel method
actually computes (CoreKernel.cpp lines 844-847), keyed on the virtual
`getType()`. -/
def coreEfficiencyMultiplier (ktype : KernelType) (cls : TaskType) : ℚ :=
  match cls with
  | TaskType.CPU_INTENSIVE => if ktype = KernelType.COMPUTATIONAL then 1.2 else 1
  | TaskType.IO_INTENSIVE => if ktype = KernelType.MICRO then 1.1 else 1
  | TaskType.MEMORY_INTENSIVE => if ktype = KernelType.ARCHITECTURAL then 1.15 else 1
  | TaskType.NETWORK_INTENSIVE => if ktype = KernelType.ORCHESTRATION then 1.25 else 1
  | TaskType.MIXED => 1

/-- The multipliers the MicroKernel override actually computes (part_009
lines 278-281). -/
def microEfficiencyMultiplier (cls : TaskType) : ℚ :=
  match cls with
  | TaskType.CPU_INTENSIVE => 0.9
  | TaskType.IO_INTENSIVE => 1.1
  | TaskType.MEMORY_INTENSIVE => 0.95
  | TaskType.NETWORK_INTENSIVE => 1.05
  | TaskType.MIXED => 1

/-! ## Helper lemmas -/

theorem selectBest_pair (a b : ℚ) :
    selectBest [a, b] 0 none 0 = if b < a then 1 else 0 := by
  simp only [selectBest]

theorem lookup_updateEntry (es : List (String × CMEntry)) (key : String)
    (e2 : CMEntry) (h : (es.lookup key).isSome) :
    (updateEntry es key e2).lookup key = some e2 := by
  induction es with
  | nil => simp at h
  | cons p rest ih =>
      obtain ⟨k, e⟩ := p
      by_cases hk : k = key
      · subst hk
        simp [updateEntry, List.lookup]
      · have hne : (key == k) = false := by
          simpa using Ne.symm hk
        rw [updateEntry, if_neg hk]
        rw [List.lookup, hne] at h ⊢
        exact ih h

theorem hexByte_length (b : Nat) : (hexByte b).length = 2 := by
  simp [hexByte, String.length]

theorem hexOfBytes_length (l : List Nat) :
    (hexOfBytes l).length = 2 * l.length := by
  induction l with
  | nil => rfl
  | cons b rest ih =>
      simp [hexOfBytes, String.length_append, hexByte_length, ih]
      ring

theorem generatePointId_length (rng : Nat → Nat) :
    (generatePointId rng).length = 16 := by
  simp [generatePointId, hexOfBytes_length]

theorem generatePointId_ne_empty (rng : Nat → Nat) :
    generatePointId rng ≠ "" := by
  intro h
  have := congrArg String.length h
  rw [generatePointId_length] at this
  simp at this

theorem processTasksStopped_eq (q acc : List Nat) :
    processTasksStopped q acc = acc ++ q := by
  induction q generalizing acc with
  | nil => simp [processTasksStopped]
  | cons t rest ih => simp [processTasksStopped, ih]

theorem lookup_eq_none_of_not_mem {K V : Type} [DecidableEq K]
    (es : List (K × V)) (k : K) (h : k ∉ es.map Prod.fst) :
    es.lookup k = none := by
  induction es with
  | nil => rfl
  | cons p rest ih =>
      simp only [List.map_cons, List.mem_cons, not_or] at h
      have hne : (k == p.1) = false := by simpa using h.1
      rw [List.lookup, hne]
      exact ih h.2

theorem evictLoopAux_eq {K V : Type} (cap fuel : Nat) (es log : List (K × V))
    (hfuel : es.length ≤ cap + fuel) :
    evictLoopAux cap fuel es log = (es.take cap, log ++ (es.drop cap).reverse) := by
  induction fuel generalizing es log with
  | zero =>
      have hle : es.length ≤ cap := by omega
      simp [evictLoopAux, List.take_of_length_le hle, List.drop_eq_nil_of_le hle]
  | succ n ih =>
      by_cases hle : es.length ≤ cap
      · simp [evictLoopAux, hle, List.take_of_length_le hle, List.drop_eq_nil_of_le hle]
      · have hne : es ≠ [] := by
          intro h2
          subst h2
          simp at hle
        rw [evictLoopAux, if_neg hle]
        rw [List.getLast?_eq_getLast es hne]
        have hlen2 : es.dropLast.length ≤ cap + n := by
          have := es.length_dropLast
          omega
        show evictLoopAux cap n es.dropLast (log ++ [es.getLast hne]) =
          (es.take cap, log ++ (es.drop cap).reverse)
        rw [ih es.dropLast (log ++ [es.getLast hne]) hlen2]
        have hcap : cap ≤ es.dropLast.length := by
          have := es.length_dropLast
          omega
        rw [Prod.mk.injEq]
        constructor
        · rw [List.dropLast_eq_take, List.take_take]
          congr 1
          omega
        · rw [List.append_assoc]
          congr 1
          have hsplit : es.drop cap = es.dropLast.drop cap ++ [es.getLast hne] := by
            conv_lhs => rw [← List.dropLast_append_getLast hne]
            rw [List.drop_append_of_le_length hcap]
          rw [hsplit]
          simp

theorem putAll_state {K V : Type} [DecidableEq K] (C : Nat) (ps : List (K × V))
    (hnd : (ps.map Prod.fst).Nodup) :
    putAll (emptyCache K V C) ps =
      ⟨C, ps.reverse.take C, ps.take (ps.length - C)⟩ := by
  induction ps using List.reverseRecOn with
  | nil => simp [putAll, emptyCache]
  | append_singleton ps p ih =>
      rw [List.map_append, List.nodup_append] at hnd
      obtain ⟨hnd1, _, hdisj⟩ := hnd
      have hnotin : p.1 ∉ ps.map Prod.fst := by
        intro hmem
        exact hdisj hmem (by simp)
      have hstep : putAll (emptyCache K V C) (ps ++ [p]) =
          specPut (putAll (emptyCache K V C) ps) p.1 p.2 := by
        simp [putAll, List.foldl_append]
      rw [hstep, ih hnd1]
      have hlookup : (List.lookup p.1 (ps.reverse.take C)) = none := by
        apply lookup_eq_none_of_not_mem
        intro hmem
        apply hnotin
        have h2 := List.take_subset C (ps.reverse.map Prod.fst)
        rw [List.map_take] at hmem
        have h3 := h2 hmem
        rw [List.map_reverse, List.mem_reverse] at h3
        exact h3
      rw [specPut]
      rw [hlookup]
      simp only [Option.isSome_none, Bool.false_eq_true, if_false]
      rw [evictLoopAux_eq _ _ _ _ (by omega)]
      rw [SpecCache.mk.injEq]
      refine ⟨rfl, ?_, ?_⟩
      · rw [List.reverse_append, List.reverse_singleton, List.singleton_append]
        rw [Prod.mk.eta]
        cases C with
        | zero => simp
        | succ c =>
            rw [List.take_succ_cons, List.take_succ_cons, List.take_take,
              Nat.min_eq_left (Nat.le_succ c)]
      · rw [Prod.mk.eta, List.length_append, List.length_singleton]
        by_cases hC : ps.length < C
        · have h1 : (p :: ps.reverse.take C).length ≤ C := by
            simp
            omega
          rw [List.drop_eq_nil_of_le h1]
          have h2 : ps.length + 1 - C = 0 := by omega
          have h3 : ps.length - C = 0 := by omega
          simp [h2, h3]
        · push_neg at hC
          cases C with
          | zero => simp
          | succ c =>
              have hlt : c < ps.reverse.length := by
                rw [List.length_reverse]
                omega
              dsimp only
              rw [List.drop_succ_cons, List.drop_take,
                List.drop_eq_getElem_cons hlt]
              have h1 : c + 1 - c = 1 := by omega
              have htake1 : ∀ (x : K × V) (t : List (K × V)),
                  List.take 1 (x :: t) = [x] := fun x t => rfl
              rw [h1, htake1]
              rw [List.reverse_cons, List.reverse_nil, List.nil_append]
              rw [List.getElem_reverse]
              have h2 : ps.length + 1 - (c + 1) = ps.length - c := by omega
              rw [h2, List.take_append_of_le_length (by omega)]
              have h3 : ps.length - c = (ps.length - (c + 1)) + 1 := by omega
              rw [h3, List.take_succ]
              congr 1
              rw [List.getElem?_eq_getElem (by omega)]
              have hidx : ps.length - 1 - c = ps.length - (c + 1) := by omega
              simp [hidx]

/-! ## Claim theorems -/

/-- Claim C2, counterexample: with a one-second entry lifetime, a key put
at time 0 and read at time 5 (four seconds past expiry) is returned as a
hit, and the entry is still resident afterwards — `getData` never checks
the TTL, contradicting the claim that such a get returns absent and
removes the entry. -/
theorem C2_counterexample_expired_get_returns_value :
    ((getData (putData ttlConfig CMState.fresh 0 "k" [1]).2 5 "k").1 = some [1]) ∧
    (((getData (putData ttlConfig CMState.fresh 0 "k" [1]).2 5 "k").2.entries.lookup
        "k").isSome = true) := by
  decide

/-- Claim C2 as amended: `CacheManager::getData` returns any resident
entry whatever its age — no TTL comparison is made — and refreshes the
entry's `lastAccess` to the read time, postponing its removal by the
cleanup pass even further. -/
theorem C2_amended_get_ignores_ttl (s : CMState) (now : Nat) (key : String)
    (e : CMEntry) (hinit : s.initialized = true)
    (hres : s.entries.lookup key = some e) :
    (getData s now key).1 = some e.data ∧
    (getData s now key).2.entries.lookup key =
      some ⟨e.data, now, e.accessCount + 1⟩ := by
  have hsome : (s.entries.lookup key).isSome := by
    rw [hres]; rfl
  constructor
  · simp [getData, hinit, hres]
  · simp [getData, hinit, hres, lookup_updateEntry _ _ _ hsome]

/-- Witness for the amended claim C2 at a concrete input. -/
theorem C2_amended_get_ignores_ttl_witness :
    ((⟨true, [("k", ⟨[1], 0, 0⟩)], 1, 0, 0⟩ : CMState).initialized = true) ∧
    ((⟨true, [("k", ⟨[1], 0, 0⟩)], 1, 0, 0⟩ : CMState).entries.lookup "k" =
      some ⟨[1], 0, 0⟩) ∧
    ((getData ⟨true, [("k", ⟨[1], 0, 0⟩)], 1, 0, 0⟩ 5 "k").1 = some [1] ∧
     (getData ⟨true, [("k", ⟨[1], 0, 0⟩)], 1, 0, 0⟩ 5 "k").2.entries.lookup "k" =
       some ⟨[1], 5, 1⟩) :=
  ⟨rfl, rfl, C2_amended_get_ignores_ttl _ 5 "k" ⟨[1], 0, 0⟩ rfl rfl⟩

/-- Claim C4: the code selects kernel index 0, not 1, in the stated
scenario.  First conjunct: the literal scenario (all shared fields zero).
Second conjunct: the same selection for every shared value of the
remaining metric fields.  `calculateResourceScore` rewards free capacity
with a higher score, yet every selection loop takes the minimum, so the
busier kernel (index 0, CPU usage 0.95) wins either branch. -/
theorem C4_code_bug_busy_kernel_selected :
    (selectByHybridAdaptive LoadBalancer.default
      [scenarioMetrics0, scenarioMetrics1] mixedTask = 0) ∧
    (∀ nb ec ce ie me ne : ℚ,
      selectByHybridAdaptive LoadBalancer.default
        [scenarioMetrics 0.95 0.3 nb ec ce ie me ne,
         scenarioMetrics 0.2 0.4 nb ec ce ie me ne] mixedTask = 0) := by
  constructor
  · norm_num [selectByHybridAdaptive, selectByResourceAware, selectByWorkloadSpecific,
      selectBest, calculateResourceScore, calculateWorkloadScore, LoadBalancer.default,
      KernelMetrics.zero, scenarioMetrics0, scenarioMetrics1, mixedTask]
  · intro nb ec ce ie me ne
    have hdiff :
        calculateResourceScore LoadBalancer.default
            (scenarioMetrics 0.95 0.3 nb ec ce ie me ne) mixedTask + (1 / 5 : ℚ) =
          calculateResourceScore LoadBalancer.default
            (scenarioMetrics 0.2 0.4 nb ec ce ie me ne) mixedTask := by
      simp only [calculateResourceScore, scenarioMetrics, LoadBalancer.default,
        KernelMetrics.zero, mixedTask]
      norm_num
      ring
    have hw :
        calculateWorkloadScore (scenarioMetrics 0.95 0.3 nb ec ce ie me ne) mixedTask =
          calculateWorkloadScore (scenarioMetrics 0.2 0.4 nb ec ce ie me ne) mixedTask := by
      simp [calculateWorkloadScore, scenarioMetrics, KernelMetrics.zero, mixedTask]
    simp only [selectByHybridAdaptive, selectByResourceAware, selectByWorkloadSpecific,
      List.map_cons, List.map_nil, List.headD_cons]
    split_ifs with h1 h2
    · rw [selectBest_pair, if_neg (by linarith)]
    · exact absurd h2.1 (by simp [mixedTask])
    · rw [selectBest_pair, if_neg (by linarith)]

/-- Claim C5: `setResourceWeights` stores its arguments verbatim — there
is no renormalisation, although LoadBalancer.hpp line 87 documents the
weights as automatically normalised.  First conjunct: after
`set_resource_weights(1,1,1,1)` the stored weights sum to 4, not 1.
Second conjunct: in general the stored sum is exactly the argument sum. -/
theorem C5_code_bug_weights_not_renormalized :
    ((setResourceWeights LoadBalancer.default 1 1 1 1).cpuWeight +
     (setResourceWeights LoadBalancer.default 1 1 1 1).memoryWeight +
     (setResourceWeights LoadBalancer.default 1 1 1 1).networkWeight +
     (setResourceWeights LoadBalancer.default 1 1 1 1).energyWeight = 4) ∧
    (∀ (lb : LoadBalancer) (a b c d : ℚ),
      (setResourceWeights lb a b c d).cpuWeight +
      (setResourceWeights lb a b c d).memoryWeight +
      (setResourceWeights lb a b c d).networkWeight +
      (setResourceWeights lb a b c d).energyWeight = a + b + c + d) := by
  constructor
  · norm_num [setResourceWeights, LoadBalancer.default]
  · intro lb a b c d
    simp [setResourceWeights]

/-- Claim C7, counterexample: a closure queued at the moment `stop` is
called is executed, not discarded — with stop set and the queue holding
one closure, the worker loop pops and runs it before exiting. -/
theorem C7_counterexample_queued_closure_executed :
    processTasksStopped [42] [] = [42] ∧ processTasksStopped [42] [] ≠ [] := by
  decide

/-- Claim C7 as amended: after `stop()` the workers drain the queue by
executing every remaining closure in FIFO order, and exit only once the
queue is empty; only closures enqueued after the workers exit are never
run. -/
theorem C7_amended_stop_drains_by_executing (q : List Nat) :
    processTasksStopped q [] = q :=
  processTasksStopped_eq q []

/-- Claim C8, counterexample: for a MICRO kernel the memory-task
efficiency is baseline times 0.95, not the claimed times 1. -/
theorem C8_counterexample_micro_memory_multiplier :
    classEfficiency (microUpdateExtendedMetrics unitPerf 0)
        TaskType.MEMORY_INTENSIVE ≠
      unitPerf.efficiencyScore *
        claimedEfficiencyMultiplier KernelType.MICRO TaskType.MEMORY_INTENSIVE := by
  norm_num [classEfficiency, microUpdateExtendedMetrics, unitPerf,
    claimedEfficiencyMultiplier]

/-- Claim C8 as amended: kernels running the inherited CoreKernel method
derive each per-class efficiency as baseline times the table keyed on
their virtual `getType()` (COMPUTATIONAL cpu 1.2, MICRO io 1.1,
ARCHITECTURAL memory 1.15, ORCHESTRATION network 1.25, else 1), while
MicroKernel overrides the method with fixed multipliers cpu 0.9, io 1.1,
memory 0.95, network 1.05 — so for MICRO kernels the memory and network
multipliers are 0.95 and 1.05, not 1. -/
theorem C8_amended_efficiency_tables (ktype : KernelType)
    (perf : PerformanceMetrics) (n : Nat) (cls : TaskType)
    (hcls : cls ≠ TaskType.MIXED) :
    (classEfficiency (coreUpdateExtendedMetrics ktype perf n) cls =
      perf.efficiencyScore * coreEfficiencyMultiplier ktype cls) ∧
    (classEfficiency (microUpdateExtendedMetrics perf n) cls =
      perf.efficiencyScore * microEfficiencyMultiplier cls) ∧
    (microEfficiencyMultiplier TaskType.MEMORY_INTENSIVE ≠
      claimedEfficiencyMultiplier KernelType.MICRO TaskType.MEMORY_INTENSIVE) := by
  refine ⟨?_, ?_, ?_⟩
  · cases cls <;>
      simp [classEfficiency, coreUpdateExtendedMetrics, coreEfficiencyMultiplier] <;>
      simp at hcls
  · cases cls <;>
      simp [classEfficiency, microUpdateExtendedMetrics, microEfficiencyMultiplier] <;>
      simp at hcls
  · norm_num [microEfficiencyMultiplier, claimedEfficiencyMultiplier]

/-- Witness for the amended claim C8 at a concrete input. -/
theorem C8_amended_efficiency_tables_witness :
    (TaskType.CPU_INTENSIVE ≠ TaskType.MIXED) ∧
    ((classEfficiency (coreUpdateExtendedMetrics KernelType.COMPUTATIONAL unitPerf 0)
        TaskType.CPU_INTENSIVE =
      unitPerf.efficiencyScore *
        coreEfficiencyMultiplier KernelType.COMPUTATIONAL TaskType.CPU_INTENSIVE) ∧
     (classEfficiency (microUpdateExtendedMetrics unitPerf 0) TaskType.CPU_INTENSIVE =
      unitPerf.efficiencyScore * microEfficiencyMultiplier TaskType.CPU_INTENSIVE) ∧
     (microEfficiencyMultiplier TaskType.MEMORY_INTENSIVE ≠
      claimedEfficiencyMultiplier KernelType.MICRO TaskType.MEMORY_INTENSIVE)) :=
  ⟨by decide, C8_amended_efficiency_tables KernelType.COMPUTATIONAL unitPerf 0
      TaskType.CPU_INTENSIVE (by decide)⟩

/-- Claim C9, counterexample: after `setStrategy("bogus")` the balancer is
not operating under HybridAdaptive — the stored enum is PriorityAdaptive —
and the getter returns the unrecognized name itself, not
"hybrid_adaptive". -/
theorem C9_counterexample_unknown_strategy :
    ((setStrategy LoadBalancer.default "bogus").strategyEnum ≠
      BalancingStrategy.HybridAdaptive) ∧
    (getStrategy (setStrategy LoadBalancer.default "bogus") = "bogus") ∧
    (getStrategy (setStrategy LoadBalancer.default "bogus") ≠ "hybrid_adaptive") := by
  refine ⟨?_, rfl, ?_⟩ <;> decide

/-- Claim C9 as amended: an unrecognized strategy name sets the strategy
enum to PriorityAdaptive (not HybridAdaptive) and stores the given name
verbatim, so the getter returns the unrecognized name; in `balance`,
PriorityAdaptive reaches the `default` branch, which dispatches through
`selectByResourceAware`. -/
theorem C9_amended_unknown_sets_priority_adaptive (lb : LoadBalancer)
    (s : String) (metrics : List KernelMetrics) (task : TaskDescriptor)
    (h : s ∉ recognizedStrategies) :
    ((setStrategy lb s).strategyEnum = BalancingStrategy.PriorityAdaptive) ∧
    (getStrategy (setStrategy lb s) = s) ∧
    (selectionFor (setStrategy lb s) metrics task =
      selectByResourceAware (setStrategy lb s) metrics task) := by
  simp only [recognizedStrategies, List.mem_cons, List.mem_singleton, not_or] at h
  obtain ⟨h1, h2, h3, h4, h5, _⟩ := h
  refine ⟨?_, rfl, ?_⟩
  · simp [setStrategy, h1, h2, h3, h4, h5]
  · simp [selectionFor, setStrategy, h1, h2, h3, h4, h5]

/-- Witness for the amended claim C9 at a concrete input. -/
theorem C9_amended_unknown_sets_priority_adaptive_witness :
    ("bogus" ∉ recognizedStrategies) ∧
    (((setStrategy LoadBalancer.default "bogus").strategyEnum =
        BalancingStrategy.PriorityAdaptive) ∧
     (getStrategy (setStrategy LoadBalancer.default "bogus") = "bogus") ∧
     (selectionFor (setStrategy LoadBalancer.default "bogus") [] mixedTask =
        selectByResourceAware (setStrategy LoadBalancer.default "bogus") [] mixedTask)) :=
  ⟨by decide,
   C9_amended_unknown_sets_priority_adaptive LoadBalancer.default "bogus" [] mixedTask
     (by decide)⟩

/-- Claim C10: when state validation is disabled, `createRecoveryPoint`
never invokes the state-capture callback (the outcome is the same for any
two callbacks), the saved record carries empty state bytes and an empty
checksum, and the non-empty 16-character id is still returned as success
(assuming the checkpoint save succeeds; the compression hook, absent from
the sources, is assumed to keep an empty state empty). -/
theorem C10_validation_disabled_empty_state (enableCompression : Bool)
    (ts : Nat) (rng : Nat → Nat) (capture capture2 : Unit → List Nat)
    (hash compress : List Nat → List Nat) (saveOk : RecoveryPoint → Bool)
    (hcomp : compress [] = []) (hsave : ∀ p, saveOk p = true) :
    (createRecoveryPoint false enableCompression (generatePointId rng) ts
        capture hash compress saveOk =
      createRecoveryPoint false enableCompression (generatePointId rng) ts
        capture2 hash compress saveOk) ∧
    (createRecoveryPoint false enableCompression (generatePointId rng) ts
        capture hash compress saveOk =
      (generatePointId rng, some ⟨generatePointId rng, ts, [], "", 0, false⟩)) ∧
    ((generatePointId rng).length = 16 ∧ generatePointId rng ≠ "") := by
  have hmain : ∀ cap : Unit → List Nat,
      createRecoveryPoint false enableCompression (generatePointId rng) ts
        cap hash compress saveOk =
      (generatePointId rng, some ⟨generatePointId rng, ts, [], "", 0, false⟩) := by
    intro cap
    simp [createRecoveryPoint, hcomp, hsave]
  exact ⟨(hmain capture).trans (hmain capture2).symm, hmain capture,
    generatePointId_length rng, generatePointId_ne_empty rng⟩

/-- Witness for claim C10 at a concrete input. -/
theorem C10_validation_disabled_empty_state_witness :
    ((fun _ : List Nat => ([] : List Nat)) [] = []) ∧
    ((createRecoveryPoint false false (generatePointId (fun _ => 0)) 0
        (fun _ => [1]) zeroDigest (fun _ => []) (fun _ => true) =
      createRecoveryPoint false false (generatePointId (fun _ => 0)) 0
        (fun _ => [2]) zeroDigest (fun _ => []) (fun _ => true)) ∧
     (createRecoveryPoint false false (generatePointId (fun _ => 0)) 0
        (fun _ => [1]) zeroDigest (fun _ => []) (fun _ => true) =
      (generatePointId (fun _ => 0),
       some ⟨generatePointId (fun _ => 0), 0, [], "", 0, false⟩)) ∧
     ((generatePointId (fun _ => 0)).length = 16 ∧
      generatePointId (fun _ => 0) ≠ "")) :=
  ⟨rfl,
   C10_validation_disabled_empty_state false 0 (fun _ => 0) (fun _ => [1])
     (fun _ => [2]) zeroDigest (fun _ => []) (fun _ => true) rfl (fun _ => rfl)⟩

/-- Claim C1 (modelled from the spec, the DynamicCache member definitions
being absent from the sources): after any sequence of more than C puts
with pairwise-distinct keys into an empty cache of capacity C, the size is
exactly C, the residents are the C most recently put entries in recency
order, and the eviction victims are the oldest puts in order, the eviction
callback having fired exactly once per victim. -/
theorem C1_lru_capacity_and_residents {K V : Type} [DecidableEq K]
    (ps : List (K × V)) (C : Nat)
    (hnd : (ps.map Prod.fst).Nodup) (hlen : C < ps.length) :
    ((putAll (emptyCache K V C) ps).entries.length = C) ∧
    ((putAll (emptyCache K V C) ps).entries = ps.reverse.take C) ∧
    ((putAll (emptyCache K V C) ps).entries.map Prod.fst =
      (ps.map Prod.fst).reverse.take C) ∧
    ((putAll (emptyCache K V C) ps).evLog = ps.take (ps.length - C)) := by
  rw [putAll_state C ps hnd]
  refine ⟨?_, rfl, ?_, rfl⟩
  · rw [List.length_take, List.length_reverse]
    omega
  · rw [List.map_take, List.map_reverse]

/-- Witness for claim C1 at a concrete input. -/
theorem C1_lru_capacity_and_residents_witness :
    (([((1 : Nat), (11 : Nat)), (2, 12), (3, 13)].map Prod.fst).Nodup) ∧
    (2 < ([((1 : Nat), (11 : Nat)), (2, 12), (3, 13)] : List (Nat × Nat)).length) ∧
    (((putAll (emptyCache Nat Nat 2) [(1, 11), (2, 12), (3, 13)]).entries.length = 2) ∧
     ((putAll (emptyCache Nat Nat 2) [(1, 11), (2, 12), (3, 13)]).entries =
       ([((1 : Nat), (11 : Nat)), (2, 12), (3, 13)] : List (Nat × Nat)).reverse.take 2) ∧
     ((putAll (emptyCache Nat Nat 2) [(1, 11), (2, 12), (3, 13)]).entries.map Prod.fst =
       (([((1 : Nat), (11 : Nat)), (2, 12), (3, 13)] : List (Nat × Nat)).map
         Prod.fst).reverse.take 2) ∧
     ((putAll (emptyCache Nat Nat 2) [(1, 11), (2, 12), (3, 13)]).evLog =
       ([((1 : Nat), (11 : Nat)), (2, 12), (3, 13)] : List (Nat × Nat)).take
         (([((1 : Nat), (11 : Nat)), (2, 12), (3, 13)] : List (Nat × Nat)).length - 2))) :=
  ⟨by decide, by decide,
   C1_lru_capacity_and_residents [(1, 11), (2, 12), (3, 13)] 2 (by decide) (by decide)⟩
end Spec2Proof
